import Mathlib

/-!
# dxc_wrapper.cpp: a C-callable adapter around the DXC shader compiler

A shallow embedding of `src/dxc_wrapper.cpp`.

* Pointers to library (COM) objects are natural numbers, `0` being `nullptr`.
* The wrapped library and the C++ string converter are an explicit record of
  functions (`Env`): every theorem quantifies over it, so it holds for every
  behaviour of the library.
* Every function returns a `Run`: how the call ended (`Outcome`) and the ordered
  list of the external operations it performed (`Event`).
* `malloc`, `strdup` and `new` are taken to succeed and to return a non-null
  pointer; a heap buffer is represented by its bytes.
* `const char *` arguments are `Option (List Byte)`: `none` is `nullptr`,
  `some s` the bytes before the terminating NUL.
-/

namespace DxcWrapper

/-! ## Basic types -/

abbrev Byte := Nat
abbrev WChar := Nat
abbrev WString := List WChar
abbrev Ptr := Nat
abbrev HRESULT := Int

/-- The `FAILED` test on an `HRESULT` (a signed 32-bit value): negative. -/
def FAILED (hr : HRESULT) : Bool := decide (hr < 0)

/-- The `SUCCEEDED` test on an `HRESULT`: non-negative. -/
def SUCCEEDED (hr : HRESULT) : Bool := decide (0 ≤ hr)

/-- The code page constant `CP_UTF8`. -/
def CP_UTF8 : Nat := 65001

/-- The output kind `DXC_OUT_OBJECT`. -/
def DXC_OUT_OBJECT : Nat := 1

/-- The bytes of a narrow string literal. -/
def lit (s : String) : List Byte := s.toList.map Char.toNat

/-- A wide string literal `L"..."`. -/
def wlit (s : String) : WString := s.toList.map Char.toNat

/-- The heap copy made by `strdup`: the characters and the terminating NUL. -/
def strdup (s : List Byte) : List Byte := s ++ [0]

/-- Length as a C string: the number of bytes before the first NUL. -/
def strlen (buf : List Byte) : Nat := (buf.takeWhile (fun b => b != 0)).length

/-- The class ids handed to `DxcCreateInstance`. -/
inductive CLSID
  | DxcCompiler
  | DxcUtils
  deriving DecidableEq, Repr

/-- The `DxcBuffer` struct: the bytes at `Ptr`, `Size` and `Encoding`. -/
structure DxcBuffer where
  Ptr : List Byte
  Size : Nat
  Encoding : Nat
  deriving DecidableEq, Repr

/-- The `DxcCompileResult` struct; `none` is a null pointer. -/
structure DxcCompileResult where
  data : Option (List Byte)
  size : Nat
  error_message : Option (List Byte)
  success : Int
  deriving DecidableEq, Repr

/-- The `DxcCompiler` struct (the handle). -/
structure DxcCompiler where
  compiler : Ptr
  utils : Ptr
  include_handler : Ptr
  include_directories : List WString
  deriving DecidableEq, Repr

/-- A `DxcCompiler *` as the caller holds it: null, pointing to a live handle,
or still pointing to a handle that was deleted. -/
inductive CtxPtr
  | null
  | live (c : DxcCompiler)
  | stale
  deriving DecidableEq, Repr

/-! ## The environment: wrapped library and string converter -/

/-- The behaviour of everything outside the file. Calls that hand back an object
give the `HRESULT` and the pointer written to the out parameter. -/
structure Env where
  /-- The converter `wstring_convert<codecvt_utf8<wchar_t>>::from_bytes`;
  `none` when it throws. -/
  from_bytes : List Byte → Option WString
  DxcCreateInstance : CLSID → HRESULT × Ptr
  CreateDefaultIncludeHandler : Ptr → HRESULT × Ptr
  /-- The call `utils->CreateBlob(data, size, codePage, &blob)`. -/
  CreateBlob : Ptr → List Byte → Nat → Nat → HRESULT × Ptr
  /-- The bytes of a blob: `GetBufferPointer` points at them and
  `GetBufferSize` is their number. -/
  blob : Ptr → List Byte
  /-- The call `compiler->Compile(&buffer, args, argCount, handler, &result)`. -/
  Compile : Ptr → DxcBuffer → List WString → Nat → Ptr → HRESULT × Ptr
  /-- The call `result->GetStatus(&status)`: the `HRESULT` and the status. -/
  GetStatus : Ptr → HRESULT × HRESULT
  GetErrorBuffer : Ptr → HRESULT × Ptr
  GetOutput : Ptr → Nat → HRESULT × Ptr

/-- The external operations a call performs, in order. An operation that hands
back an object records, as its last field `out`, the pointer it handed back. -/
inductive Event
  | DxcCreateInstance (clsid : CLSID) (out : Ptr)
  | CreateDefaultIncludeHandler (utils : Ptr) (out : Ptr)
  | CreateBlob (utils : Ptr) (data : List Byte) (size : Nat) (codePage : Nat) (out : Ptr)
  | GetBufferPointer (blob : Ptr)
  | GetBufferSize (blob : Ptr)
  | Compile (compiler : Ptr) (buffer : DxcBuffer) (arguments : List WString)
      (argCount : Nat) (handler : Ptr) (out : Ptr)
  | GetStatus (result : Ptr)
  | GetErrorBuffer (result : Ptr) (out : Ptr)
  | GetOutput (result : Ptr) (kind : Nat) (out : Ptr)
  | Release (obj : Ptr)
  | newCtx
  | deleteCtx
  | malloc (size : Nat)
  | strdup (text : List Byte)
  | free (buf : List Byte)
  deriving DecidableEq, Repr

/-- Why a call did not return. -/
inductive Abort
  /-- A method call through a null object pointer. -/
  | nullDeref
  /-- A read through a pointer to a deleted handle. -/
  | useAfterFree
  /-- The construction `std::string(nullptr)`. -/
  | nullString
  /-- The converter threw. -/
  | conversion
  deriving DecidableEq, Repr

/-- How a call ended. -/
inductive Outcome (α : Type)
  | returned (value : α)
  | aborted (why : Abort)
  deriving DecidableEq, Repr

/-- A call: how it ended and what it did. -/
structure Run (α : Type) where
  outcome : Outcome α
  trace : List Event
  deriving DecidableEq, Repr

/-! ## The functions of the file -/

/-- The function `stringToWstring`. -/
def stringToWstring (env : Env) (str : List Byte) : Option WString :=
  env.from_bytes str

/-- The function `dxc_create_compiler`; the value is the pointer returned. -/
def dxc_create_compiler (env : Env) : Run CtxPtr :=
  let ctx : DxcCompiler :=
    { compiler := 0, utils := 0, include_handler := 0, include_directories := [] }
  let r1 := env.DxcCreateInstance CLSID.DxcCompiler
  let ctx := { ctx with compiler := r1.2 }
  let t1 := [Event.newCtx, Event.DxcCreateInstance CLSID.DxcCompiler r1.2]
  if FAILED r1.1 then
    ⟨Outcome.returned CtxPtr.null, t1 ++ [Event.deleteCtx]⟩
  else
    let r2 := env.DxcCreateInstance CLSID.DxcUtils
    let ctx := { ctx with utils := r2.2 }
    let t2 := t1 ++ [Event.DxcCreateInstance CLSID.DxcUtils r2.2]
    if FAILED r2.1 then
      if ctx.compiler = 0 then ⟨Outcome.aborted Abort.nullDeref, t2⟩
      else
        ⟨Outcome.returned CtxPtr.null,
          t2 ++ [Event.Release ctx.compiler, Event.deleteCtx]⟩
    else if ctx.utils = 0 then ⟨Outcome.aborted Abort.nullDeref, t2⟩
    else
      let r3 := env.CreateDefaultIncludeHandler ctx.utils
      let ctx := { ctx with include_handler := r3.2 }
      let t3 := t2 ++ [Event.CreateDefaultIncludeHandler ctx.utils r3.2]
      if FAILED r3.1 then
        if ctx.compiler = 0 then
          ⟨Outcome.aborted Abort.nullDeref, t3 ++ [Event.Release ctx.utils]⟩
        else
          ⟨Outcome.returned CtxPtr.null,
            t3 ++ [Event.Release ctx.utils, Event.Release ctx.compiler, Event.deleteCtx]⟩
      else
        ⟨Outcome.returned (CtxPtr.live ctx), t3⟩

/-- The function `dxc_add_include_path`; the value is the handle afterwards. -/
def dxc_add_include_path (env : Env) (ctx : CtxPtr) (include_path : Option (List Byte)) :
    Run CtxPtr :=
  match include_path with
  | none => ⟨Outcome.aborted Abort.nullString, []⟩
  | some path =>
    match stringToWstring env path with
    | none => ⟨Outcome.aborted Abort.conversion, []⟩
    | some w_include_path =>
      match ctx with
      | CtxPtr.null => ⟨Outcome.aborted Abort.nullDeref, []⟩
      | CtxPtr.stale => ⟨Outcome.aborted Abort.useAfterFree, []⟩
      | CtxPtr.live c =>
        ⟨Outcome.returned (CtxPtr.live
          { c with include_directories := c.include_directories ++ [w_include_path] }), []⟩

/-- The result `{0}` with which `dxc_compile_hlsl_to_spirv` starts. -/
def zeroResult : DxcCompileResult :=
  { data := none, size := 0, error_message := none, success := 0 }

/-- A return that reports a fixed text: `result.error_message = strdup(text)`. -/
def failWith (text : String) (trace : List Event) : Run DxcCompileResult :=
  ⟨Outcome.returned { zeroResult with error_message := some (strdup (lit text)) },
    trace ++ [Event.strdup (lit text)]⟩

/-- The argument vector built in `dxc_compile_hlsl_to_spirv`: the initializer
list, four `push_back`s and the loop over the include directories. -/
def buildArguments (w_entry_point w_target_profile : WString)
    (include_directories : List WString) : List WString :=
  let arguments := [wlit "-spirv", wlit "-fspv-target-env=vulkan1.3", wlit "-Zi"]
  let arguments := arguments ++ [wlit "-E"]
  let arguments := arguments ++ [w_entry_point]
  let arguments := arguments ++ [wlit "-T"]
  let arguments := arguments ++ [w_target_profile]
  include_directories.foldl (fun args path => (args ++ [wlit "-I"]) ++ [path]) arguments

/-- The part of `dxc_compile_hlsl_to_spirv` after `Compile` handed back a
result object: status, error buffer, output. -/
def afterCompile (env : Env) (compile_result : Ptr) (t : List Event) : Run DxcCompileResult :=
  let rs := env.GetStatus compile_result
  let t := t ++ [Event.GetStatus compile_result]
  if FAILED rs.1 then
    failWith "Failed to get compilation status" (t ++ [Event.Release compile_result])
  else if FAILED rs.2 then
    let re := env.GetErrorBuffer compile_result
    let error_blob := re.2
    let t := t ++ [Event.GetErrorBuffer compile_result error_blob]
    if SUCCEEDED re.1 && error_blob != 0 && decide ((env.blob error_blob).length > 0) then
      let error_size := (env.blob error_blob).length
      let message := (env.blob error_blob).take error_size ++ [0]
      ⟨Outcome.returned { zeroResult with error_message := some message },
        t ++ [Event.GetBufferSize error_blob, Event.GetBufferSize error_blob,
              Event.malloc (error_size + 1), Event.GetBufferPointer error_blob,
              Event.Release error_blob, Event.Release compile_result]⟩
    else
      let r := failWith "Compilation failed with unknown error"
        (if SUCCEEDED re.1 && error_blob != 0 then t ++ [Event.GetBufferSize error_blob] else t)
      ⟨r.outcome, r.trace ++ [Event.Release compile_result]⟩
  else
    let ro := env.GetOutput compile_result DXC_OUT_OBJECT
    let output_blob := ro.2
    let t := t ++ [Event.GetOutput compile_result DXC_OUT_OBJECT output_blob]
    if FAILED ro.1 || output_blob == 0 then
      failWith "Failed to get compiled output" (t ++ [Event.Release compile_result])
    else
      let size := (env.blob output_blob).length
      let data := (env.blob output_blob).take size
      ⟨Outcome.returned { zeroResult with size := size, data := some data, success := 1 },
        t ++ [Event.GetBufferSize output_blob, Event.malloc size,
              Event.GetBufferPointer output_blob, Event.Release output_blob,
              Event.Release compile_result]⟩

/-- The function `dxc_compile_hlsl_to_spirv`. -/
def dxc_compile_hlsl_to_spirv (env : Env) (ctx : CtxPtr)
    (source_name source_code : Option (List Byte)) (source_size : Nat)
    (entry_point target_profile : Option (List Byte)) : Run DxcCompileResult :=
  match ctx, source_code, entry_point, target_profile with
  | CtxPtr.stale, some _, some _, some _ => ⟨Outcome.aborted Abort.useAfterFree, []⟩
  | CtxPtr.live c, some code, some entry, some profile =>
    if c.utils = 0 then ⟨Outcome.aborted Abort.nullDeref, []⟩
    else
      let rb := env.CreateBlob c.utils code (source_size % 2 ^ 32) CP_UTF8
      let source_blob := rb.2
      let t := [Event.CreateBlob c.utils code (source_size % 2 ^ 32) CP_UTF8 source_blob]
      if FAILED rb.1 || source_blob == 0 then
        failWith "Failed to create source blob" t
      else
        match source_name with
        | none => ⟨Outcome.aborted Abort.nullString, t⟩
        | some name =>
          match stringToWstring env name with
          | none => ⟨Outcome.aborted Abort.conversion, t⟩
          | some _ =>
            match stringToWstring env entry with
            | none => ⟨Outcome.aborted Abort.conversion, t⟩
            | some w_entry_point =>
              match stringToWstring env profile with
              | none => ⟨Outcome.aborted Abort.conversion, t⟩
              | some w_target_profile =>
                let arguments :=
                  buildArguments w_entry_point w_target_profile c.include_directories
                let source_buffer : DxcBuffer :=
                  { Ptr := env.blob source_blob, Size := (env.blob source_blob).length,
                    Encoding := CP_UTF8 }
                let t := t ++ [Event.GetBufferPointer source_blob,
                  Event.GetBufferSize source_blob]
                if c.compiler = 0 then ⟨Outcome.aborted Abort.nullDeref, t⟩
                else
                  let argCount := arguments.length % 2 ^ 32
                  let rc := env.Compile c.compiler source_buffer arguments argCount
                    c.include_handler
                  let compile_result := rc.2
                  let t := t ++ [Event.Compile c.compiler source_buffer arguments argCount
                    c.include_handler compile_result, Event.Release source_blob]
                  if FAILED rc.1 || compile_result == 0 then
                    failWith "Compilation failed" t
                  else
                    afterCompile env compile_result t
  | _, _, _, _ => failWith "Invalid parameters" []

/-- The function `dxc_free_result`; the value is the struct afterwards
(`none` for a null `result` pointer). -/
def dxc_free_result (result : Option DxcCompileResult) : Run (Option DxcCompileResult) :=
  match result with
  | none => ⟨Outcome.returned none, []⟩
  | some r =>
    let t1 := match r.data with
      | some d => [Event.free d]
      | none => []
    let t2 := match r.error_message with
      | some m => [Event.free m]
      | none => []
    ⟨Outcome.returned (some { data := none, size := 0, error_message := none, success := 0 }),
      t1 ++ t2⟩

/-- The releases of `dxc_destroy_compiler` on a live handle: each object that
is present, in the order of the source. -/
def destroyReleases (c : DxcCompiler) : List Event :=
  (if c.include_handler ≠ 0 then [Event.Release c.include_handler] else []) ++
  (if c.utils ≠ 0 then [Event.Release c.utils] else []) ++
  (if c.compiler ≠ 0 then [Event.Release c.compiler] else [])

/-- The function `dxc_destroy_compiler`; the value is what the caller's pointer
designates afterwards. -/
def dxc_destroy_compiler (ctx : CtxPtr) : Run CtxPtr :=
  match ctx with
  | CtxPtr.null => ⟨Outcome.returned CtxPtr.null, []⟩
  | CtxPtr.stale => ⟨Outcome.aborted Abort.useAfterFree, []⟩
  | CtxPtr.live c => ⟨Outcome.returned CtxPtr.stale, destroyReleases c ++ [Event.deleteCtx]⟩

/-! ## Auxiliary definitions used in the statements -/

/-- Whether an event is a call into the wrapped library. -/
def Event.isLibraryCall : Event → Bool
  | Event.newCtx => false
  | Event.deleteCtx => false
  | Event.malloc _ => false
  | Event.strdup _ => false
  | Event.free _ => false
  | _ => true

/-- The objects a trace obtained from the library: the non-null pointers handed back. -/
def acquired : List Event → List Ptr
  | [] => []
  | Event.DxcCreateInstance _ out :: t => if out = 0 then acquired t else out :: acquired t
  | Event.CreateDefaultIncludeHandler _ out :: t =>
    if out = 0 then acquired t else out :: acquired t
  | Event.CreateBlob _ _ _ _ out :: t => if out = 0 then acquired t else out :: acquired t
  | Event.Compile _ _ _ _ _ out :: t => if out = 0 then acquired t else out :: acquired t
  | Event.GetErrorBuffer _ out :: t => if out = 0 then acquired t else out :: acquired t
  | Event.GetOutput _ _ out :: t => if out = 0 then acquired t else out :: acquired t
  | _ :: t => acquired t

/-- The objects a trace released, in order. -/
def released : List Event → List Ptr
  | [] => []
  | Event.Release p :: t => p :: released t
  | _ :: t => released t

/-- The argument vector and count handed to `Compile`, if the trace has such a call. -/
def compileCall : List Event → Option (List WString × Nat)
  | [] => none
  | Event.Compile _ _ arguments argCount _ _ :: _ => some (arguments, argCount)
  | _ :: t => compileCall t

/-- The source buffer handed to `Compile`, if the trace has such a call. -/
def compileBuffer : List Event → Option DxcBuffer
  | [] => none
  | Event.Compile _ buffer _ _ _ _ :: _ => some buffer
  | _ :: t => compileBuffer t

/-- Successive calls of `dxc_add_include_path` on one handle, in list order. -/
def addIncludePaths (env : Env) : CtxPtr → List (List Byte) → Outcome CtxPtr
  | ctx, [] => Outcome.returned ctx
  | ctx, p :: ps =>
    match (dxc_add_include_path env ctx (some p)).outcome with
    | Outcome.returned ctx1 => addIncludePaths env ctx1 ps
    | Outcome.aborted why => Outcome.aborted why

/-- The include-path arguments as the specification lists them: each path
preceded by the flag. -/
def includeArgs : List WString → List WString
  | [] => []
  | p :: ps => wlit "-I" :: p :: includeArgs ps

/-- The argument vector as the specification lists it. -/
def specArguments (e t : WString) (paths : List WString) : List WString :=
  [wlit "-spirv", wlit "-fspv-target-env=vulkan1.3", wlit "-Zi", wlit "-E", e, wlit "-T", t]
    ++ includeArgs paths

/-! ## A concrete environment for the examples -/

/-- A converter that agrees with UTF-8 decoding on ASCII text and throws on
every other input. -/
def asciiFromBytes (s : List Byte) : Option WString :=
  if s.all (fun b => decide (b < 128)) then some s else none

/-- A library in which every acquisition succeeds: the compiler is object 11,
the utilities 12, the include handler 13, the source blob 21, the compile
result 22, the error blob 31 holding `errors`, the output blob 41 holding four
bytes; the compile status is `status`. -/
def sampleEnv (status : HRESULT) (errors : List Byte) : Env :=
  { from_bytes := asciiFromBytes
    DxcCreateInstance := fun clsid =>
      match clsid with
      | CLSID.DxcCompiler => (0, 11)
      | CLSID.DxcUtils => (0, 12)
    CreateDefaultIncludeHandler := fun _ => (0, 13)
    CreateBlob := fun _ _ _ _ => (0, 21)
    blob := fun p =>
      if p = 21 then [118, 111, 105, 100] else if p = 31 then errors
      else if p = 41 then [3, 2, 35, 7] else []
    Compile := fun _ _ _ _ _ => (0, 22)
    GetStatus := fun _ => (0, status)
    GetErrorBuffer := fun _ => (0, 31)
    GetOutput := fun _ _ => (0, 41) }

/-- The handle `dxc_create_compiler` returns in `sampleEnv`. -/
def sampleHandle : DxcCompiler :=
  { compiler := 11, utils := 12, include_handler := 13, include_directories := [] }

/-- The failure status `E_FAIL`. -/
def E_FAIL : HRESULT := -2147467259

/-- The environment `sampleEnv 0 []` with the three acquisitions of
`dxc_create_compiler` replaced by the given outcomes. -/
def createEnv (r1 r2 r3 : HRESULT × Ptr) : Env :=
  { sampleEnv 0 [] with
    DxcCreateInstance := fun clsid =>
      match clsid with
      | CLSID.DxcCompiler => r1
      | CLSID.DxcUtils => r2
    CreateDefaultIncludeHandler := fun _ => r3 }

/-- The convention of the library for calls that hand back an object: the call
fails exactly when it hands back no object. -/
def comContract (r : HRESULT × Ptr) : Prop := FAILED r.1 = true ↔ r.2 = 0

/-- The result struct with every field zero. -/
def clearedResult : DxcCompileResult :=
  { data := none, size := 0, error_message := none, success := 0 }

/-- What `CreateBlob` answers in a compile call on handle `c`. -/
def sourceBlobOf (env : Env) (c : DxcCompiler) (code : List Byte) (source_size : Nat) :
    HRESULT × Ptr :=
  env.CreateBlob c.utils code (source_size % 2 ^ 32) CP_UTF8

/-- The source buffer a compile call hands to `Compile`. -/
def sourceBufferOf (env : Env) (c : DxcCompiler) (code : List Byte) (source_size : Nat) :
    DxcBuffer :=
  { Ptr := env.blob (sourceBlobOf env c code source_size).2
    Size := (env.blob (sourceBlobOf env c code source_size).2).length
    Encoding := CP_UTF8 }

/-- What `Compile` answers in a compile call on handle `c` with the converted
entry point `we` and target profile `wt`. -/
def compileResultOf (env : Env) (c : DxcCompiler) (code : List Byte) (source_size : Nat)
    (we wt : WString) : HRESULT × Ptr :=
  env.Compile c.compiler (sourceBufferOf env c code source_size)
    (buildArguments we wt c.include_directories)
    ((buildArguments we wt c.include_directories).length % 2 ^ 32) c.include_handler

/-- The events of a compile call up to the release of the source blob. -/
def compilePrefix (env : Env) (c : DxcCompiler) (code : List Byte) (source_size : Nat)
    (we wt : WString) : List Event :=
  [Event.CreateBlob c.utils code (source_size % 2 ^ 32) CP_UTF8
      (sourceBlobOf env c code source_size).2,
    Event.GetBufferPointer (sourceBlobOf env c code source_size).2,
    Event.GetBufferSize (sourceBlobOf env c code source_size).2,
    Event.Compile c.compiler (sourceBufferOf env c code source_size)
      (buildArguments we wt c.include_directories)
      ((buildArguments we wt c.include_directories).length % 2 ^ 32) c.include_handler
      (compileResultOf env c code source_size we wt).2,
    Event.Release (sourceBlobOf env c code source_size).2]

/-- Whether an event is the call of `Compile`. -/
def Event.isCompile : Event → Bool
  | Event.Compile _ _ _ _ _ _ => true
  | _ => false

/-- Whether an event is the call of `GetOutput`. -/
def Event.isGetOutput : Event → Bool
  | Event.GetOutput _ _ _ => true
  | _ => false

/-- The shape of a successful result: flag 1, data present, no message. -/
def successShape (r : DxcCompileResult) : Prop :=
  r.success = 1 ∧ r.data ≠ none ∧ r.error_message = none

/-- The shape of a failed result as the specification states it: flag 0, no
data, size 0 and a message that is non-empty as a C string. -/
def failureShapeClaimed (r : DxcCompileResult) : Prop :=
  r.success = 0 ∧ r.data = none ∧ r.size = 0 ∧
    ∃ msg, r.error_message = some msg ∧ 0 < strlen msg

/-- The shape of a failed result as the code produces it: flag 0, no data,
size 0 and a message buffer that holds at least one byte before its final
NUL; the message is non-empty as a C string unless it is the copy of a library
error buffer whose first byte is NUL. -/
def failureShape (env : Env) (r : DxcCompileResult) : Prop :=
  r.success = 0 ∧ r.data = none ∧ r.size = 0 ∧
    ∃ msg, r.error_message = some msg ∧ 2 ≤ msg.length ∧ msg.getLast? = some 0 ∧
      (0 < strlen msg ∨
        ∃ res, msg = env.blob (env.GetErrorBuffer res).2 ++ [0] ∧
          (env.blob (env.GetErrorBuffer res).2).head? = some 0)

/-! ## Handle lifecycle and result teardown -/

/-- C1: when the handle, the source pointer, the entry point or the target
profile is null, `dxc_compile_hlsl_to_spirv` returns success 0, null data, size
0 and the non-empty message "Invalid parameters"; its only effect is the
`strdup` of that message, so no library operation is invoked. (The function has
no handle output: the source never writes through `ctx`.) -/
theorem compile_null_argument_rejected (env : Env) (ctx : CtxPtr)
    (source_name source_code : Option (List Byte)) (source_size : Nat)
    (entry_point target_profile : Option (List Byte))
    (h : ctx = CtxPtr.null ∨ source_code = none ∨ entry_point = none ∨ target_profile = none) :
    (dxc_compile_hlsl_to_spirv env ctx source_name source_code source_size entry_point
        target_profile).outcome
      = Outcome.returned ⟨none, 0, some (strdup (lit "Invalid parameters")), 0⟩
    ∧ 0 < strlen (strdup (lit "Invalid parameters"))
    ∧ (dxc_compile_hlsl_to_spirv env ctx source_name source_code source_size entry_point
        target_profile).trace = [Event.strdup (lit "Invalid parameters")]
    ∧ ∀ e ∈ (dxc_compile_hlsl_to_spirv env ctx source_name source_code source_size entry_point
        target_profile).trace, e.isLibraryCall = false := by
  have hrun : dxc_compile_hlsl_to_spirv env ctx source_name source_code source_size entry_point
      target_profile = failWith "Invalid parameters" [] := by
    rcases h with h | h | h | h
    · subst h; simp [dxc_compile_hlsl_to_spirv]
    · subst h; cases ctx <;> simp [dxc_compile_hlsl_to_spirv]
    · subst h; cases ctx <;> cases source_code <;> simp [dxc_compile_hlsl_to_spirv]
    · subst h
      cases ctx <;> cases source_code <;> cases entry_point <;> simp [dxc_compile_hlsl_to_spirv]
  rw [hrun]
  refine ⟨rfl, by decide, rfl, ?_⟩
  intro e he
  simp only [failWith, List.nil_append, List.mem_singleton] at he
  subst he
  rfl

/-- Witness of C1: a null source pointer on a live handle. -/
theorem compile_null_argument_rejected_witness :
    (dxc_compile_hlsl_to_spirv (sampleEnv 0 []) (CtxPtr.live sampleHandle) (some [97]) none 0
        (some [109]) (some [118])).outcome
      = Outcome.returned ⟨none, 0, some (strdup (lit "Invalid parameters")), 0⟩
    ∧ 0 < strlen (strdup (lit "Invalid parameters"))
    ∧ (dxc_compile_hlsl_to_spirv (sampleEnv 0 []) (CtxPtr.live sampleHandle) (some [97]) none 0
        (some [109]) (some [118])).trace = [Event.strdup (lit "Invalid parameters")]
    ∧ ∀ e ∈ (dxc_compile_hlsl_to_spirv (sampleEnv 0 []) (CtxPtr.live sampleHandle) (some [97])
        none 0 (some [109]) (some [118])).trace, e.isLibraryCall = false :=
  compile_null_argument_rejected (sampleEnv 0 []) (CtxPtr.live sampleHandle) (some [97]) none 0
    (some [109]) (some [118]) (Or.inr (Or.inl rfl))

/-- First acquisition failed: the handle memory is deleted, nothing else is done. -/
theorem create_stage1_failed (env : Env)
    (h1 : FAILED (env.DxcCreateInstance CLSID.DxcCompiler).1 = true) :
    dxc_create_compiler env = ⟨Outcome.returned CtxPtr.null,
      [Event.newCtx,
       Event.DxcCreateInstance CLSID.DxcCompiler (env.DxcCreateInstance CLSID.DxcCompiler).2,
       Event.deleteCtx]⟩ := by
  simp [dxc_create_compiler, h1]

/-- Second acquisition failed: the compiler is released. -/
theorem create_stage2_failed (env : Env)
    (h1 : FAILED (env.DxcCreateInstance CLSID.DxcCompiler).1 = false)
    (h2 : FAILED (env.DxcCreateInstance CLSID.DxcUtils).1 = true)
    (hp1 : (env.DxcCreateInstance CLSID.DxcCompiler).2 ≠ 0) :
    dxc_create_compiler env = ⟨Outcome.returned CtxPtr.null,
      [Event.newCtx,
       Event.DxcCreateInstance CLSID.DxcCompiler (env.DxcCreateInstance CLSID.DxcCompiler).2,
       Event.DxcCreateInstance CLSID.DxcUtils (env.DxcCreateInstance CLSID.DxcUtils).2,
       Event.Release (env.DxcCreateInstance CLSID.DxcCompiler).2, Event.deleteCtx]⟩ := by
  simp [dxc_create_compiler, h1, h2, hp1]

/-- Third acquisition failed: the utilities, then the compiler are released. -/
theorem create_stage3_failed (env : Env)
    (h1 : FAILED (env.DxcCreateInstance CLSID.DxcCompiler).1 = false)
    (h2 : FAILED (env.DxcCreateInstance CLSID.DxcUtils).1 = false)
    (h3 : FAILED (env.CreateDefaultIncludeHandler (env.DxcCreateInstance CLSID.DxcUtils).2).1
      = true)
    (hp1 : (env.DxcCreateInstance CLSID.DxcCompiler).2 ≠ 0)
    (hp2 : (env.DxcCreateInstance CLSID.DxcUtils).2 ≠ 0) :
    dxc_create_compiler env = ⟨Outcome.returned CtxPtr.null,
      [Event.newCtx,
       Event.DxcCreateInstance CLSID.DxcCompiler (env.DxcCreateInstance CLSID.DxcCompiler).2,
       Event.DxcCreateInstance CLSID.DxcUtils (env.DxcCreateInstance CLSID.DxcUtils).2,
       Event.CreateDefaultIncludeHandler (env.DxcCreateInstance CLSID.DxcUtils).2
         (env.CreateDefaultIncludeHandler (env.DxcCreateInstance CLSID.DxcUtils).2).2,
       Event.Release (env.DxcCreateInstance CLSID.DxcUtils).2,
       Event.Release (env.DxcCreateInstance CLSID.DxcCompiler).2, Event.deleteCtx]⟩ := by
  simp [dxc_create_compiler, h1, h2, h3, hp1, hp2]

/-- All three acquisitions succeeded: the handle holds what they handed back. -/
theorem create_all_acquired (env : Env)
    (h1 : FAILED (env.DxcCreateInstance CLSID.DxcCompiler).1 = false)
    (h2 : FAILED (env.DxcCreateInstance CLSID.DxcUtils).1 = false)
    (h3 : FAILED (env.CreateDefaultIncludeHandler (env.DxcCreateInstance CLSID.DxcUtils).2).1
      = false)
    (hp2 : (env.DxcCreateInstance CLSID.DxcUtils).2 ≠ 0) :
    dxc_create_compiler env = ⟨Outcome.returned (CtxPtr.live
        { compiler := (env.DxcCreateInstance CLSID.DxcCompiler).2,
          utils := (env.DxcCreateInstance CLSID.DxcUtils).2,
          include_handler :=
            (env.CreateDefaultIncludeHandler (env.DxcCreateInstance CLSID.DxcUtils).2).2,
          include_directories := [] }),
      [Event.newCtx,
       Event.DxcCreateInstance CLSID.DxcCompiler (env.DxcCreateInstance CLSID.DxcCompiler).2,
       Event.DxcCreateInstance CLSID.DxcUtils (env.DxcCreateInstance CLSID.DxcUtils).2,
       Event.CreateDefaultIncludeHandler (env.DxcCreateInstance CLSID.DxcUtils).2
         (env.CreateDefaultIncludeHandler (env.DxcCreateInstance CLSID.DxcUtils).2).2]⟩ := by
  simp [dxc_create_compiler, h1, h2, h3, hp2]

/-- C7: with a library that follows its convention (an acquisition fails
exactly when it hands back no object), `dxc_create_compiler` acquires the
compiler, the utilities and the include handler in that order. If the first
acquisition fails nothing else is attempted; if the second fails the compiler
is released; if the third fails the utilities and then the compiler are
released; in each case the handle memory is deleted and null is returned. If
all three succeed the handle holds the three non-null objects and an empty
include-path list. A handle is returned exactly when all three succeed, and
whenever null is returned the objects released are the objects acquired. -/
theorem create_compiler_all_or_nothing (env : Env)
    (h1 : comContract (env.DxcCreateInstance CLSID.DxcCompiler))
    (h2 : comContract (env.DxcCreateInstance CLSID.DxcUtils))
    (h3 : comContract (env.CreateDefaultIncludeHandler (env.DxcCreateInstance CLSID.DxcUtils).2)) :
    (FAILED (env.DxcCreateInstance CLSID.DxcCompiler).1 = true →
      dxc_create_compiler env = ⟨Outcome.returned CtxPtr.null,
        [Event.newCtx, Event.DxcCreateInstance CLSID.DxcCompiler 0, Event.deleteCtx]⟩)
    ∧ (FAILED (env.DxcCreateInstance CLSID.DxcCompiler).1 = false →
       FAILED (env.DxcCreateInstance CLSID.DxcUtils).1 = true →
      dxc_create_compiler env = ⟨Outcome.returned CtxPtr.null,
        [Event.newCtx,
         Event.DxcCreateInstance CLSID.DxcCompiler (env.DxcCreateInstance CLSID.DxcCompiler).2,
         Event.DxcCreateInstance CLSID.DxcUtils 0,
         Event.Release (env.DxcCreateInstance CLSID.DxcCompiler).2, Event.deleteCtx]⟩)
    ∧ (FAILED (env.DxcCreateInstance CLSID.DxcCompiler).1 = false →
       FAILED (env.DxcCreateInstance CLSID.DxcUtils).1 = false →
       FAILED (env.CreateDefaultIncludeHandler (env.DxcCreateInstance CLSID.DxcUtils).2).1 = true →
      dxc_create_compiler env = ⟨Outcome.returned CtxPtr.null,
        [Event.newCtx,
         Event.DxcCreateInstance CLSID.DxcCompiler (env.DxcCreateInstance CLSID.DxcCompiler).2,
         Event.DxcCreateInstance CLSID.DxcUtils (env.DxcCreateInstance CLSID.DxcUtils).2,
         Event.CreateDefaultIncludeHandler (env.DxcCreateInstance CLSID.DxcUtils).2 0,
         Event.Release (env.DxcCreateInstance CLSID.DxcUtils).2,
         Event.Release (env.DxcCreateInstance CLSID.DxcCompiler).2, Event.deleteCtx]⟩)
    ∧ (FAILED (env.DxcCreateInstance CLSID.DxcCompiler).1 = false →
       FAILED (env.DxcCreateInstance CLSID.DxcUtils).1 = false →
       FAILED (env.CreateDefaultIncludeHandler (env.DxcCreateInstance CLSID.DxcUtils).2).1 = false →
      dxc_create_compiler env = ⟨Outcome.returned (CtxPtr.live
          { compiler := (env.DxcCreateInstance CLSID.DxcCompiler).2,
            utils := (env.DxcCreateInstance CLSID.DxcUtils).2,
            include_handler :=
              (env.CreateDefaultIncludeHandler (env.DxcCreateInstance CLSID.DxcUtils).2).2,
            include_directories := [] }),
        [Event.newCtx,
         Event.DxcCreateInstance CLSID.DxcCompiler (env.DxcCreateInstance CLSID.DxcCompiler).2,
         Event.DxcCreateInstance CLSID.DxcUtils (env.DxcCreateInstance CLSID.DxcUtils).2,
         Event.CreateDefaultIncludeHandler (env.DxcCreateInstance CLSID.DxcUtils).2
           (env.CreateDefaultIncludeHandler (env.DxcCreateInstance CLSID.DxcUtils).2).2]⟩
      ∧ (env.DxcCreateInstance CLSID.DxcCompiler).2 ≠ 0
      ∧ (env.DxcCreateInstance CLSID.DxcUtils).2 ≠ 0
      ∧ (env.CreateDefaultIncludeHandler (env.DxcCreateInstance CLSID.DxcUtils).2).2 ≠ 0)
    ∧ ((∃ c, (dxc_create_compiler env).outcome = Outcome.returned (CtxPtr.live c)) ↔
        (FAILED (env.DxcCreateInstance CLSID.DxcCompiler).1 = false ∧
         FAILED (env.DxcCreateInstance CLSID.DxcUtils).1 = false ∧
         FAILED (env.CreateDefaultIncludeHandler (env.DxcCreateInstance CLSID.DxcUtils).2).1
           = false))
    ∧ ((∃ c, (dxc_create_compiler env).outcome = Outcome.returned (CtxPtr.live c)) ∨
        ((dxc_create_compiler env).outcome = Outcome.returned CtxPtr.null
          ∧ released (dxc_create_compiler env).trace
              = (acquired (dxc_create_compiler env).trace).reverse
          ∧ (dxc_create_compiler env).trace.getLast? = some Event.deleteCtx)) := by
  unfold comContract at h1 h2 h3
  cases hf1 : FAILED (env.DxcCreateInstance CLSID.DxcCompiler).1
  · have hp1 : (env.DxcCreateInstance CLSID.DxcCompiler).2 ≠ 0 :=
      fun h => by simp [h1.mpr h] at hf1
    cases hf2 : FAILED (env.DxcCreateInstance CLSID.DxcUtils).1
    · have hp2 : (env.DxcCreateInstance CLSID.DxcUtils).2 ≠ 0 :=
        fun h => by simp [h2.mpr h] at hf2
      cases hf3 : FAILED (env.CreateDefaultIncludeHandler (env.DxcCreateInstance CLSID.DxcUtils).2).1
      · have hp3 : (env.CreateDefaultIncludeHandler (env.DxcCreateInstance CLSID.DxcUtils).2).2 ≠ 0 :=
          fun h => by simp [h3.mpr h] at hf3
        rw [create_all_acquired env hf1 hf2 hf3 hp2]
        simp [hp1, hp2, hp3]
      · have hp3 := h3.mp hf3
        rw [create_stage3_failed env hf1 hf2 hf3 hp1 hp2, hp3]
        simp [acquired, released, hp1, hp2]
    · have hp2 := h2.mp hf2
      rw [create_stage2_failed env hf1 hf2 hp1, hp2]
      simp [acquired, released, hp1]
  · have hp1 := h1.mp hf1
    rw [create_stage1_failed env hf1, hp1]
    simp [acquired, released]

/-- Witness of C7: the third acquisition fails; the utilities (12) and then
the compiler (11) are released and null is returned. -/
theorem create_compiler_all_or_nothing_witness :
    dxc_create_compiler (createEnv (0, 11) (0, 12) (E_FAIL, 0))
      = ⟨Outcome.returned CtxPtr.null,
        [Event.newCtx, Event.DxcCreateInstance CLSID.DxcCompiler 11,
         Event.DxcCreateInstance CLSID.DxcUtils 12, Event.CreateDefaultIncludeHandler 12 0,
         Event.Release 12, Event.Release 11, Event.deleteCtx]⟩ :=
  (create_compiler_all_or_nothing (createEnv (0, 11) (0, 12) (E_FAIL, 0))
    (by unfold comContract; decide) (by unfold comContract; decide)
    (by unfold comContract; decide)).2.2.1 (by decide) (by decide) (by decide)

/-- C8: `dxc_free_result` on a present result leaves every field zero and
frees `data` and `error_message` once each, only when they are non-null; a
second call on the result it left frees nothing and changes nothing; on a null
result pointer it does nothing. -/
theorem free_result_clears_and_is_idempotent (r : DxcCompileResult) :
    (dxc_free_result (some r)).outcome = Outcome.returned (some clearedResult)
    ∧ (dxc_free_result (some r)).trace
        = r.data.toList.map Event.free ++ r.error_message.toList.map Event.free
    ∧ dxc_free_result (some clearedResult) = ⟨Outcome.returned (some clearedResult), []⟩
    ∧ dxc_free_result none = ⟨Outcome.returned none, []⟩
    ∧ clearedResult.data = none ∧ clearedResult.error_message = none
    ∧ clearedResult.size = 0 ∧ clearedResult.success = 0 := by
  refine ⟨rfl, ?_, rfl, rfl, rfl, rfl, rfl, rfl⟩
  cases hd : r.data <;> cases he : r.error_message <;> simp [dxc_free_result, hd, he]

/-- C9 as stated fails: after `dxc_destroy_compiler` on a live handle the
caller's pointer designates deleted memory, and a second call on it is not a
no-op: the function only tests for null, so it reads the deleted handle. -/
theorem destroy_twice_not_noop :
    (dxc_destroy_compiler (CtxPtr.live sampleHandle)).outcome = Outcome.returned CtxPtr.stale
    ∧ (dxc_destroy_compiler CtxPtr.stale).outcome = Outcome.aborted Abort.useAfterFree
    ∧ dxc_destroy_compiler CtxPtr.stale ≠ ⟨Outcome.returned CtxPtr.stale, []⟩ := by
  decide

/-- C9 amended: on a live handle `dxc_destroy_compiler` releases the include
handler, then the utilities, then the compiler, each only if non-null, then
deletes the handle, and nothing else; on a null handle it does nothing. -/
theorem destroy_releases_in_order (c : DxcCompiler) :
    (dxc_destroy_compiler (CtxPtr.live c)).outcome = Outcome.returned CtxPtr.stale
    ∧ (dxc_destroy_compiler (CtxPtr.live c)).trace
        = ([c.include_handler, c.utils, c.compiler].filter (fun p => p != 0)).map Event.Release
          ++ [Event.deleteCtx]
    ∧ released (dxc_destroy_compiler (CtxPtr.live c)).trace
        = [c.include_handler, c.utils, c.compiler].filter (fun p => p != 0)
    ∧ dxc_destroy_compiler CtxPtr.null = ⟨Outcome.returned CtxPtr.null, []⟩ := by
  refine ⟨rfl, ?_, ?_, rfl⟩
  · by_cases h1 : c.include_handler = 0 <;> by_cases h2 : c.utils = 0 <;>
      by_cases h3 : c.compiler = 0 <;>
      simp [dxc_destroy_compiler, destroyReleases, List.filter_cons, h1, h2, h3]
  · by_cases h1 : c.include_handler = 0 <;> by_cases h2 : c.utils = 0 <;>
      by_cases h3 : c.compiler = 0 <;>
      simp [dxc_destroy_compiler, destroyReleases, List.filter_cons, released, h1, h2, h3]

/-! ## The compile operation: shared lemmas -/

/-- The `push_back` loop appends the flag and the path for each directory. -/
theorem foldl_push_include (dirs : List WString) (acc : List WString) :
    dirs.foldl (fun args path => (args ++ [wlit "-I"]) ++ [path]) acc
      = acc ++ includeArgs dirs := by
  induction dirs generalizing acc with
  | nil => simp [includeArgs]
  | cons d ds ih => rw [List.foldl_cons, ih]; simp [includeArgs]

/-- The vector the code builds is the vector the specification lists. -/
theorem buildArguments_eq (we wt : WString) (dirs : List WString) :
    buildArguments we wt dirs = specArguments we wt dirs := by
  simp only [buildArguments, specArguments]
  rw [foldl_push_include]
  simp

theorem includeArgs_length (dirs : List WString) :
    (includeArgs dirs).length = 2 * dirs.length := by
  induction dirs with
  | nil => rfl
  | cons d ds ih => simp [includeArgs, ih]; omega

theorem buildArguments_length (we wt : WString) (dirs : List WString) :
    (buildArguments we wt dirs).length = 7 + 2 * dirs.length := by
  simp only [buildArguments_eq, specArguments, List.length_append, includeArgs_length,
    List.length_cons, List.length_nil]

/-- A run of `dxc_add_include_path` calls that returns has appended the
converted paths, in order. -/
theorem addIncludePaths_returned (env : Env) (ps : List (List Byte)) (c : DxcCompiler)
    (ctx : CtxPtr) (h : addIncludePaths env (CtxPtr.live c) ps = Outcome.returned ctx) :
    ∃ ws, ps.map (stringToWstring env) = ws.map some ∧
      ctx = CtxPtr.live { c with include_directories := c.include_directories ++ ws } := by
  induction ps generalizing c with
  | nil =>
    refine ⟨[], rfl, ?_⟩
    simp only [addIncludePaths, Outcome.returned.injEq] at h
    simp [← h]
  | cons p ps ih =>
    cases hp : stringToWstring env p with
    | none => simp [addIncludePaths, dxc_add_include_path, hp] at h
    | some w =>
      simp only [addIncludePaths, dxc_add_include_path, hp] at h
      obtain ⟨ws, hws, hctx⟩ := ih _ h
      refine ⟨w :: ws, by simp [hp, hws], ?_⟩
      simp [hctx]

/-- When every path converts, the run of `dxc_add_include_path` calls returns. -/
theorem addIncludePaths_of_converts (env : Env) (ps : List (List Byte)) (ws : List WString)
    (c : DxcCompiler) (h : ps.map (stringToWstring env) = ws.map some) :
    addIncludePaths env (CtxPtr.live c) ps
      = Outcome.returned
          (CtxPtr.live { c with include_directories := c.include_directories ++ ws }) := by
  induction ps generalizing c ws with
  | nil =>
    cases ws with
    | nil => simp [addIncludePaths]
    | cons w ws => simp at h
  | cons p ps ih =>
    cases ws with
    | nil => simp at h
    | cons w ws =>
      simp only [List.map_cons, List.cons.injEq] at h
      simp only [addIncludePaths, dxc_add_include_path, h.1]
      rw [ih ws _ h.2]
      simp

/-- The compile call once `Compile` is reached: its events so far are
`compilePrefix`, and it continues according to what `Compile` answered. -/
theorem compile_reached (env : Env) (c : DxcCompiler) (name code : List Byte)
    (source_size : Nat) (entry profile : List Byte) (wn we wt : WString)
    (hu : c.utils ≠ 0) (hc : c.compiler ≠ 0)
    (hb1 : FAILED (sourceBlobOf env c code source_size).1 = false)
    (hb2 : (sourceBlobOf env c code source_size).2 ≠ 0)
    (hn : stringToWstring env name = some wn)
    (he : stringToWstring env entry = some we)
    (ht : stringToWstring env profile = some wt) :
    dxc_compile_hlsl_to_spirv env (CtxPtr.live c) (some name) (some code) source_size
        (some entry) (some profile)
      = if FAILED (compileResultOf env c code source_size we wt).1
            || (compileResultOf env c code source_size we wt).2 == 0 then
          failWith "Compilation failed" (compilePrefix env c code source_size we wt)
        else
          afterCompile env (compileResultOf env c code source_size we wt).2
            (compilePrefix env c code source_size we wt) := by
  unfold sourceBlobOf at hb1 hb2
  have e32 : (2 : Nat) ^ 32 = 4294967296 := by norm_num
  rw [e32] at hb1 hb2
  simp [dxc_compile_hlsl_to_spirv, hu, hc, hb1, hb2, hn, he, ht, compileResultOf,
    compilePrefix, sourceBufferOf, sourceBlobOf]

/-- The part after `Compile` only appends events, none of them a `Compile`. -/
theorem afterCompile_trace (env : Env) (res : Ptr) (t : List Event) :
    ∃ suffix, (afterCompile env res t).trace = t ++ suffix ∧
      ∀ e ∈ suffix, e.isCompile = false := by
  unfold afterCompile
  simp only [failWith]
  split_ifs <;> simp [Event.isCompile]

/-- Every `Compile` event of a compile call on a live handle carries the
handle's compiler and include handler, the source buffer made from the blob,
the built argument vector and its length reduced to 32 bits. -/
theorem compile_event_shape (env : Env) (c : DxcCompiler) (source_name : Option (List Byte))
    (code : List Byte) (source_size : Nat) (entry profile : List Byte)
    (cp : Ptr) (buf : DxcBuffer) (args : List WString) (cnt : Nat) (h out : Ptr)
    (hmem : Event.Compile cp buf args cnt h out ∈
      (dxc_compile_hlsl_to_spirv env (CtxPtr.live c) source_name (some code) source_size
        (some entry) (some profile)).trace) :
    ∃ we wt, stringToWstring env entry = some we ∧ stringToWstring env profile = some wt ∧
      cp = c.compiler ∧ buf = sourceBufferOf env c code source_size ∧
      args = buildArguments we wt c.include_directories ∧
      cnt = args.length % 2 ^ 32 ∧ h = c.include_handler := by
  have e32 : (2 : Nat) ^ 32 = 4294967296 := by norm_num
  by_cases hu : c.utils = 0
  · simp [dxc_compile_hlsl_to_spirv, hu] at hmem
  by_cases hb : FAILED (sourceBlobOf env c code source_size).1 = true ∨
      (sourceBlobOf env c code source_size).2 = 0
  · unfold sourceBlobOf at hb
    rw [e32] at hb
    simp [dxc_compile_hlsl_to_spirv, hu, hb, failWith] at hmem
  have hb1 : FAILED (sourceBlobOf env c code source_size).1 = false := by
    cases hf : FAILED (sourceBlobOf env c code source_size).1
    · rfl
    · exact absurd (Or.inl hf) hb
  have hb2 : (sourceBlobOf env c code source_size).2 ≠ 0 := fun h0 => hb (Or.inr h0)
  have hb1u := hb1
  have hb2u := hb2
  unfold sourceBlobOf at hb1u hb2u
  rw [e32] at hb1u hb2u
  cases source_name with
  | none => simp [dxc_compile_hlsl_to_spirv, hu, hb1u, hb2u] at hmem
  | some name =>
    cases hn : stringToWstring env name with
    | none => simp [dxc_compile_hlsl_to_spirv, hu, hb1u, hb2u, hn] at hmem
    | some wn =>
      cases he : stringToWstring env entry with
      | none => simp [dxc_compile_hlsl_to_spirv, hu, hb1u, hb2u, hn, he] at hmem
      | some we =>
        cases ht : stringToWstring env profile with
        | none => simp [dxc_compile_hlsl_to_spirv, hu, hb1u, hb2u, hn, he, ht] at hmem
        | some wt =>
          by_cases hc : c.compiler = 0
          · simp [dxc_compile_hlsl_to_spirv, hu, hb1u, hb2u, hn, he, ht, hc] at hmem
          rw [compile_reached env c name code source_size entry profile wn we wt hu hc hb1 hb2
            hn he ht] at hmem
          have hpre : Event.Compile cp buf args cnt h out ∈
              compilePrefix env c code source_size we wt := by
            split_ifs at hmem
            · simpa [failWith] using hmem
            · obtain ⟨suffix, hs, hno⟩ := afterCompile_trace env
                (compileResultOf env c code source_size we wt).2
                (compilePrefix env c code source_size we wt)
              rw [hs, List.mem_append] at hmem
              rcases hmem with hm | hm
              · exact hm
              · have := hno _ hm
                simp [Event.isCompile] at this
          simp only [compilePrefix, List.mem_cons, List.mem_singleton, Event.Compile.injEq,
            List.mem_nil_iff, or_false, false_or, reduceCtorEq] at hpre
          obtain ⟨h1, h2, h3, h4, h5, -⟩ := hpre
          exact ⟨we, wt, rfl, rfl, h1, h2, h3, by rw [h4, h3], h5⟩

/-- The `Compile` event is in the trace once the call reaches `Compile`. -/
theorem compile_event_present (env : Env) (c : DxcCompiler) (name code : List Byte)
    (source_size : Nat) (entry profile : List Byte) (wn we wt : WString)
    (hu : c.utils ≠ 0) (hc : c.compiler ≠ 0)
    (hb1 : FAILED (sourceBlobOf env c code source_size).1 = false)
    (hb2 : (sourceBlobOf env c code source_size).2 ≠ 0)
    (hn : stringToWstring env name = some wn)
    (he : stringToWstring env entry = some we)
    (ht : stringToWstring env profile = some wt) :
    Event.Compile c.compiler (sourceBufferOf env c code source_size)
        (buildArguments we wt c.include_directories)
        ((buildArguments we wt c.include_directories).length % 2 ^ 32) c.include_handler
        (compileResultOf env c code source_size we wt).2
      ∈ (dxc_compile_hlsl_to_spirv env (CtxPtr.live c) (some name) (some code) source_size
          (some entry) (some profile)).trace := by
  rw [compile_reached env c name code source_size entry profile wn we wt hu hc hb1 hb2 hn he ht]
  have hpre : Event.Compile c.compiler (sourceBufferOf env c code source_size)
      (buildArguments we wt c.include_directories)
      ((buildArguments we wt c.include_directories).length % 2 ^ 32) c.include_handler
      (compileResultOf env c code source_size we wt).2
        ∈ compilePrefix env c code source_size we wt := by
    simp [compilePrefix]
  split_ifs
  · simp only [failWith, List.mem_append]
    exact Or.inl hpre
  · obtain ⟨suffix, hs, -⟩ := afterCompile_trace env
      (compileResultOf env c code source_size we wt).2
      (compilePrefix env c code source_size we wt)
    rw [hs, List.mem_append]
    exact Or.inl hpre

/-! ## C2: the argument vector -/

/-- In `sampleEnv`, adding the empty path `n` times to `sampleHandle` returns
the handle with `n` empty include directories. -/
theorem sample_add_empty_paths (n : Nat) :
    addIncludePaths (sampleEnv 0 []) (CtxPtr.live sampleHandle) (List.replicate n [])
      = Outcome.returned
          (CtxPtr.live { sampleHandle with include_directories := List.replicate n [] }) := by
  have h := addIncludePaths_of_converts (sampleEnv 0 []) (List.replicate n [])
    (List.replicate n []) sampleHandle
    (by simp [List.map_replicate, stringToWstring, sampleEnv, asciiFromBytes])
  rw [h]
  simp [sampleHandle]

/-- In `sampleEnv`, a compile call on the handle with `n` empty include
directories hands `Compile` a vector of `7 + 2 * n` arguments and the count
`(7 + 2 * n) % 2 ^ 32`. -/
theorem sample_compile_count (n : Nat) :
    Event.Compile 11 ⟨[118, 111, 105, 100], 4, 65001⟩
        (specArguments [109] [118] (List.replicate n [])) ((7 + 2 * n) % 2 ^ 32) 13 22
      ∈ (dxc_compile_hlsl_to_spirv (sampleEnv 0 [])
          (CtxPtr.live { sampleHandle with include_directories := List.replicate n [] })
          (some [97]) (some [118, 111, 105, 100]) 4 (some [109]) (some [118])).trace
    ∧ (specArguments [109] [118] (List.replicate n [])).length = 7 + 2 * n := by
  have h := compile_event_present (sampleEnv 0 [])
    { sampleHandle with include_directories := List.replicate n [] }
    [97] [118, 111, 105, 100] 4 [109] [118] [97] [109] [118]
    (by simp [sampleHandle]) (by simp [sampleHandle])
    (by simp [sourceBlobOf, sampleEnv, FAILED]) (by simp [sourceBlobOf, sampleEnv])
    (by decide) (by decide) (by decide)
  rw [buildArguments_length, buildArguments_eq] at h
  have hlen : (specArguments [109] [118] (List.replicate n [])).length = 7 + 2 * n := by
    rw [← buildArguments_eq, buildArguments_length, List.length_replicate]
  refine ⟨?_, hlen⟩
  simpa [sampleHandle, sourceBufferOf, sourceBlobOf, compileResultOf, sampleEnv, CP_UTF8,
    List.length_replicate] using h

/-- C2 as stated fails for the count: after 2147483645 registrations the
vector has 7 + 2 * 2147483645 = 4294967297 arguments, and the count handed to
`Compile`, a 32-bit unsigned value, is 1. -/
theorem compile_argument_count_wraps :
    addIncludePaths (sampleEnv 0 []) (CtxPtr.live sampleHandle) (List.replicate 2147483645 [])
      = Outcome.returned (CtxPtr.live
          { sampleHandle with include_directories := List.replicate 2147483645 [] })
    ∧ Event.Compile 11 ⟨[118, 111, 105, 100], 4, 65001⟩
        (specArguments [109] [118] (List.replicate 2147483645 [])) 1 13 22
      ∈ (dxc_compile_hlsl_to_spirv (sampleEnv 0 [])
          (CtxPtr.live { sampleHandle with include_directories := List.replicate 2147483645 [] })
          (some [97]) (some [118, 111, 105, 100]) 4 (some [109]) (some [118])).trace
    ∧ (specArguments [109] [118] (List.replicate 2147483645 [])).length = 4294967297
    ∧ (1 : Nat) ≠ 7 + 2 * 2147483645 := by
  have h := sample_compile_count 2147483645
  have e : (7 + 2 * 2147483645) % 2 ^ 32 = 1 := by norm_num
  rw [e] at h
  exact ⟨sample_add_empty_paths 2147483645, h.1, h.2, by norm_num⟩

/-- C2 amended: for a handle whose include-path list was built from the empty
list by `dxc_add_include_path` on `p1, ..., pn`, every `Compile` call of
`dxc_compile_hlsl_to_spirv` receives exactly the vector `-spirv`,
`-fspv-target-env=vulkan1.3`, `-Zi`, `-E`, entry point, `-T`, target profile,
then `-I`, path for each registered path in registration order (all strings
converted); the vector has `7 + 2 * n` elements and the count handed over is
`(7 + 2 * n) % 2 ^ 32`, which is `7 + 2 * n` when that is below `2 ^ 32`. The
call does reach `Compile` when the handle's objects are non-null, the source
blob is created and the three strings convert. -/
theorem compile_argument_vector (env : Env) (c0 : DxcCompiler) (ps : List (List Byte))
    (ctx : CtxPtr) (source_name : Option (List Byte)) (code : List Byte) (source_size : Nat)
    (entry profile : List Byte)
    (h0 : c0.include_directories = [])
    (hadd : addIncludePaths env (CtxPtr.live c0) ps = Outcome.returned ctx) :
    ∃ ws, ps.map (stringToWstring env) = ws.map some ∧
      (∀ cp buf args cnt h out,
        Event.Compile cp buf args cnt h out ∈
          (dxc_compile_hlsl_to_spirv env ctx source_name (some code) source_size (some entry)
            (some profile)).trace →
        ∃ we wt, stringToWstring env entry = some we ∧ stringToWstring env profile = some wt ∧
          args = [wlit "-spirv", wlit "-fspv-target-env=vulkan1.3", wlit "-Zi", wlit "-E", we,
                  wlit "-T", wt] ++ includeArgs ws ∧
          args.length = 7 + 2 * ps.length ∧
          cnt = (7 + 2 * ps.length) % 2 ^ 32 ∧
          (7 + 2 * ps.length < 2 ^ 32 → cnt = 7 + 2 * ps.length)) ∧
      (∀ name wn we wt, source_name = some name →
        c0.utils ≠ 0 → c0.compiler ≠ 0 →
        FAILED (sourceBlobOf env c0 code source_size).1 = false →
        (sourceBlobOf env c0 code source_size).2 ≠ 0 →
        stringToWstring env name = some wn → stringToWstring env entry = some we →
        stringToWstring env profile = some wt →
        ∃ buf out, Event.Compile c0.compiler buf
            ([wlit "-spirv", wlit "-fspv-target-env=vulkan1.3", wlit "-Zi", wlit "-E", we,
              wlit "-T", wt] ++ includeArgs ws)
            ((7 + 2 * ps.length) % 2 ^ 32) c0.include_handler out ∈
          (dxc_compile_hlsl_to_spirv env ctx source_name (some code) source_size (some entry)
            (some profile)).trace) := by
  obtain ⟨ws, hws, hctx⟩ := addIncludePaths_returned env ps c0 ctx hadd
  have hlen : ws.length = ps.length := by
    have := congrArg List.length hws
    simpa using this.symm
  subst hctx
  rw [h0, List.nil_append]
  refine ⟨ws, hws, ?_, ?_⟩
  · intro cp buf args cnt h out hmem
    obtain ⟨we, wt, he, ht, -, -, hargs, hcnt, -⟩ :=
      compile_event_shape env _ source_name code source_size entry profile cp buf args cnt h out
        hmem
    have hal : args.length = 7 + 2 * ps.length := by
      rw [hargs, buildArguments_length, hlen]
    refine ⟨we, wt, he, ht, ?_, hal, ?_, ?_⟩
    · rw [hargs, buildArguments_eq]; rfl
    · rw [hcnt, hal]
    · intro hlt
      rw [hcnt, hal, Nat.mod_eq_of_lt hlt]
  · intro name wn we wt hsn hu hc hb1 hb2 hn he ht
    subst hsn
    have h := compile_event_present env { c0 with include_directories := ws } name code
      source_size entry profile wn we wt hu hc hb1 hb2 hn he ht
    rw [buildArguments_length, buildArguments_eq] at h
    simp only [hlen] at h
    exact ⟨_, _, h⟩

/-- Witness of C2: two registered paths, `a` then `b`; every `Compile` event of
the call carries the eleven arguments in order. -/
theorem compile_argument_vector_witness :
    ∃ ws, [[97], [98]].map (stringToWstring (sampleEnv 0 [])) = ws.map some ∧
      (∀ cp buf args cnt h out,
        Event.Compile cp buf args cnt h out ∈
          (dxc_compile_hlsl_to_spirv (sampleEnv 0 [])
            (CtxPtr.live { sampleHandle with include_directories := [[97], [98]] })
            (some [97]) (some [118, 111, 105, 100]) 4 (some [109]) (some [118])).trace →
        ∃ we wt, stringToWstring (sampleEnv 0 []) [109] = some we ∧
          stringToWstring (sampleEnv 0 []) [118] = some wt ∧
          args = [wlit "-spirv", wlit "-fspv-target-env=vulkan1.3", wlit "-Zi", wlit "-E", we,
                  wlit "-T", wt] ++ includeArgs ws ∧
          args.length = 7 + 2 * [[97], [98]].length ∧
          cnt = (7 + 2 * [[97], [98]].length) % 2 ^ 32 ∧
          (7 + 2 * [[97], [98]].length < 2 ^ 32 → cnt = 7 + 2 * [[97], [98]].length)) ∧
      (∀ name wn we wt, some [97] = some name →
        sampleHandle.utils ≠ 0 → sampleHandle.compiler ≠ 0 →
        FAILED (sourceBlobOf (sampleEnv 0 []) sampleHandle [118, 111, 105, 100] 4).1 = false →
        (sourceBlobOf (sampleEnv 0 []) sampleHandle [118, 111, 105, 100] 4).2 ≠ 0 →
        stringToWstring (sampleEnv 0 []) name = some wn →
        stringToWstring (sampleEnv 0 []) [109] = some we →
        stringToWstring (sampleEnv 0 []) [118] = some wt →
        ∃ buf out, Event.Compile sampleHandle.compiler buf
            ([wlit "-spirv", wlit "-fspv-target-env=vulkan1.3", wlit "-Zi", wlit "-E", we,
              wlit "-T", wt] ++ includeArgs ws)
            ((7 + 2 * [[97], [98]].length) % 2 ^ 32) sampleHandle.include_handler out ∈
          (dxc_compile_hlsl_to_spirv (sampleEnv 0 [])
            (CtxPtr.live { sampleHandle with include_directories := [[97], [98]] })
            (some [97]) (some [118, 111, 105, 100]) 4 (some [109]) (some [118])).trace) :=
  compile_argument_vector (sampleEnv 0 []) sampleHandle [[97], [98]]
    (CtxPtr.live { sampleHandle with include_directories := [[97], [98]] })
    (some [97]) [118, 111, 105, 100] 4 [109] [118] rfl (by decide)

/-! ## C3: the shape of the result -/

/-- A return through `failWith` with one of the texts of the source has the
failure shape, with a message that is non-empty as a C string. -/
theorem failWith_shape (env : Env) (text : String) (t : List Event)
    (htext : 0 < strlen (strdup (lit text)) ∧ 2 ≤ (strdup (lit text)).length) :
    ∃ r, (failWith text t).outcome = Outcome.returned r ∧ failureShape env r ∧
      failureShapeClaimed r := by
  refine ⟨_, rfl, ⟨rfl, rfl, rfl, _, rfl, htext.2, ?_, Or.inl htext.1⟩,
    ⟨rfl, rfl, rfl, _, rfl, htext.1⟩⟩
  simp [strdup]

/-- The copy of a non-empty error buffer is a message of the failure shape. -/
theorem copied_message_shape (bytes : List Byte) (h : bytes ≠ []) :
    2 ≤ (bytes ++ [0]).length ∧ (bytes ++ [0]).getLast? = some 0 ∧
      (0 < strlen (bytes ++ [0]) ∨ bytes.head? = some 0) := by
  refine ⟨?_, List.getLast?_concat bytes, ?_⟩
  · cases bytes with
    | nil => exact absurd rfl h
    | cons b bs => simp
  · cases bytes with
    | nil => exact absurd rfl h
    | cons b bs =>
      by_cases hb : b = 0
      · right; simp [hb]
      · left; simp [strlen, List.takeWhile_cons, hb]

/-- The part after `Compile` when the status cannot be read. -/
theorem afterCompile_status_unreadable (env : Env) (res : Ptr) (t : List Event)
    (h1 : FAILED (env.GetStatus res).1 = true) :
    afterCompile env res t = failWith "Failed to get compilation status"
      (t ++ [Event.GetStatus res] ++ [Event.Release res]) := by
  simp [afterCompile, h1]

/-- The part after `Compile` when the status is a failure and the error buffer
is present and non-empty: the message is the buffer and a final NUL. -/
theorem afterCompile_diagnostic (env : Env) (res : Ptr) (t : List Event)
    (h1 : FAILED (env.GetStatus res).1 = false) (h2 : FAILED (env.GetStatus res).2 = true)
    (h3 : (SUCCEEDED (env.GetErrorBuffer res).1 && (env.GetErrorBuffer res).2 != 0
      && decide ((env.blob (env.GetErrorBuffer res).2).length > 0)) = true) :
    afterCompile env res t = ⟨Outcome.returned
        ⟨none, 0, some (env.blob (env.GetErrorBuffer res).2 ++ [0]), 0⟩,
      t ++ [Event.GetStatus res, Event.GetErrorBuffer res (env.GetErrorBuffer res).2,
        Event.GetBufferSize (env.GetErrorBuffer res).2,
        Event.GetBufferSize (env.GetErrorBuffer res).2,
        Event.malloc ((env.blob (env.GetErrorBuffer res).2).length + 1),
        Event.GetBufferPointer (env.GetErrorBuffer res).2,
        Event.Release (env.GetErrorBuffer res).2, Event.Release res]⟩ := by
  unfold afterCompile
  simp only [h1, h2, h3, if_true, Bool.false_eq_true, if_false, List.take_length, zeroResult,
    List.append_assoc, List.singleton_append, List.cons_append, List.nil_append]

/-- The part after `Compile` when the status is a failure and the error buffer
is missing or empty: the generic text. -/
theorem afterCompile_unknown_error (env : Env) (res : Ptr) (t : List Event)
    (h1 : FAILED (env.GetStatus res).1 = false) (h2 : FAILED (env.GetStatus res).2 = true)
    (h3 : (SUCCEEDED (env.GetErrorBuffer res).1 && (env.GetErrorBuffer res).2 != 0
      && decide ((env.blob (env.GetErrorBuffer res).2).length > 0)) = false) :
    afterCompile env res t = ⟨Outcome.returned
        ⟨none, 0, some (strdup (lit "Compilation failed with unknown error")), 0⟩,
      t ++ [Event.GetStatus res, Event.GetErrorBuffer res (env.GetErrorBuffer res).2]
        ++ (if SUCCEEDED (env.GetErrorBuffer res).1 && (env.GetErrorBuffer res).2 != 0 then
              [Event.GetBufferSize (env.GetErrorBuffer res).2] else [])
        ++ [Event.strdup (lit "Compilation failed with unknown error"), Event.Release res]⟩ := by
  unfold afterCompile
  simp only [h1, h2, h3, Bool.false_eq_true, if_false, if_true, failWith, zeroResult]
  split_ifs <;> simp

/-- The part after `Compile` when the status is a success and the output
cannot be retrieved. -/
theorem afterCompile_no_output (env : Env) (res : Ptr) (t : List Event)
    (h1 : FAILED (env.GetStatus res).1 = false) (h2 : FAILED (env.GetStatus res).2 = false)
    (h3 : (FAILED (env.GetOutput res DXC_OUT_OBJECT).1
      || (env.GetOutput res DXC_OUT_OBJECT).2 == 0) = true) :
    afterCompile env res t = failWith "Failed to get compiled output"
      (t ++ [Event.GetStatus res]
        ++ [Event.GetOutput res DXC_OUT_OBJECT (env.GetOutput res DXC_OUT_OBJECT).2]
        ++ [Event.Release res]) := by
  unfold afterCompile
  simp only [h1, h2, h3, Bool.false_eq_true, if_false, if_true]

/-- The part after `Compile` when the status is a success and the output blob
is retrieved: the data is a copy of the blob. -/
theorem afterCompile_output (env : Env) (res : Ptr) (t : List Event)
    (h1 : FAILED (env.GetStatus res).1 = false) (h2 : FAILED (env.GetStatus res).2 = false)
    (h3 : (FAILED (env.GetOutput res DXC_OUT_OBJECT).1
      || (env.GetOutput res DXC_OUT_OBJECT).2 == 0) = false) :
    afterCompile env res t = ⟨Outcome.returned
        ⟨some (env.blob (env.GetOutput res DXC_OUT_OBJECT).2),
          (env.blob (env.GetOutput res DXC_OUT_OBJECT).2).length, none, 1⟩,
      t ++ [Event.GetStatus res,
        Event.GetOutput res DXC_OUT_OBJECT (env.GetOutput res DXC_OUT_OBJECT).2,
        Event.GetBufferSize (env.GetOutput res DXC_OUT_OBJECT).2,
        Event.malloc (env.blob (env.GetOutput res DXC_OUT_OBJECT).2).length,
        Event.GetBufferPointer (env.GetOutput res DXC_OUT_OBJECT).2,
        Event.Release (env.GetOutput res DXC_OUT_OBJECT).2, Event.Release res]⟩ := by
  unfold afterCompile
  simp only [h1, h2, h3, Bool.false_eq_true, if_false, List.take_length, zeroResult,
    List.append_assoc, List.singleton_append, List.cons_append, List.nil_append]

/-- The part after `Compile` always returns, with a result of the success
shape or of the failure shape. -/
theorem afterCompile_shape (env : Env) (res : Ptr) (t : List Event) :
    ∃ r, (afterCompile env res t).outcome = Outcome.returned r ∧
      (successShape r ∨ failureShape env r) := by
  cases h1 : FAILED (env.GetStatus res).1
  · cases h2 : FAILED (env.GetStatus res).2
    · cases h3 : (FAILED (env.GetOutput res DXC_OUT_OBJECT).1
        || (env.GetOutput res DXC_OUT_OBJECT).2 == 0)
      · rw [afterCompile_output env res t h1 h2 h3]
        exact ⟨_, rfl, Or.inl ⟨rfl, by simp, rfl⟩⟩
      · rw [afterCompile_no_output env res t h1 h2 h3]
        obtain ⟨r, hr, hs, -⟩ := failWith_shape env "Failed to get compiled output"
          (t ++ [Event.GetStatus res]
            ++ [Event.GetOutput res DXC_OUT_OBJECT (env.GetOutput res DXC_OUT_OBJECT).2]
            ++ [Event.Release res]) (by decide)
        exact ⟨r, hr, Or.inr hs⟩
    · cases h3 : (SUCCEEDED (env.GetErrorBuffer res).1 && (env.GetErrorBuffer res).2 != 0
        && decide ((env.blob (env.GetErrorBuffer res).2).length > 0))
      · rw [afterCompile_unknown_error env res t h1 h2 h3]
        exact ⟨_, rfl, Or.inr ⟨rfl, rfl, rfl, _, rfl, by decide, by decide, Or.inl (by decide)⟩⟩
      · rw [afterCompile_diagnostic env res t h1 h2 h3]
        have hne : env.blob (env.GetErrorBuffer res).2 ≠ [] := by
          intro h0
          rw [h0] at h3
          simp at h3
        obtain ⟨hl, hlast, hstr⟩ := copied_message_shape _ hne
        refine ⟨_, rfl, Or.inr ⟨rfl, rfl, rfl, _, rfl, hl, hlast, ?_⟩⟩
        rcases hstr with hstr | hstr
        · exact Or.inl hstr
        · exact Or.inr ⟨res, rfl, hstr⟩
  · rw [afterCompile_status_unreadable env res t h1]
    obtain ⟨r, hr, hs, -⟩ := failWith_shape env "Failed to get compilation status"
      (t ++ [Event.GetStatus res] ++ [Event.Release res]) (by decide)
    exact ⟨r, hr, Or.inr hs⟩

/-- Every way a compile call can end: it does not return, or it returns
through `failWith` with one of three texts, or it ends as the part after
`Compile` does. -/
theorem compile_outcome_cases (env : Env) (ctx : CtxPtr)
    (source_name source_code : Option (List Byte)) (source_size : Nat)
    (entry_point target_profile : Option (List Byte)) :
    (∃ why, (dxc_compile_hlsl_to_spirv env ctx source_name source_code source_size entry_point
        target_profile).outcome = Outcome.aborted why)
    ∨ (dxc_compile_hlsl_to_spirv env ctx source_name source_code source_size entry_point
        target_profile).outcome = (failWith "Invalid parameters" []).outcome
    ∨ (dxc_compile_hlsl_to_spirv env ctx source_name source_code source_size entry_point
        target_profile).outcome = (failWith "Failed to create source blob" []).outcome
    ∨ (dxc_compile_hlsl_to_spirv env ctx source_name source_code source_size entry_point
        target_profile).outcome = (failWith "Compilation failed" []).outcome
    ∨ ∃ res t, (dxc_compile_hlsl_to_spirv env ctx source_name source_code source_size
        entry_point target_profile).outcome = (afterCompile env res t).outcome := by
  have e32 : (2 : Nat) ^ 32 = 4294967296 := by norm_num
  cases ctx with
  | null => right; left; simp [dxc_compile_hlsl_to_spirv]
  | stale =>
    cases source_code <;> cases entry_point <;> cases target_profile <;>
      simp [dxc_compile_hlsl_to_spirv, failWith]
  | live c =>
    cases source_code with
    | none => right; left; simp [dxc_compile_hlsl_to_spirv]
    | some code =>
    cases entry_point with
    | none => right; left; simp [dxc_compile_hlsl_to_spirv]
    | some entry =>
    cases target_profile with
    | none => right; left; simp [dxc_compile_hlsl_to_spirv]
    | some profile =>
    by_cases hu : c.utils = 0
    · left; simp [dxc_compile_hlsl_to_spirv, hu]
    by_cases hb : FAILED (sourceBlobOf env c code source_size).1 = true ∨
        (sourceBlobOf env c code source_size).2 = 0
    · unfold sourceBlobOf at hb
      rw [e32] at hb
      right; right; left
      simp [dxc_compile_hlsl_to_spirv, hu, hb, failWith]
    have hb1 : FAILED (sourceBlobOf env c code source_size).1 = false := by
      cases hf : FAILED (sourceBlobOf env c code source_size).1
      · rfl
      · exact absurd (Or.inl hf) hb
    have hb2 : (sourceBlobOf env c code source_size).2 ≠ 0 := fun h0 => hb (Or.inr h0)
    have hb1u := hb1
    have hb2u := hb2
    unfold sourceBlobOf at hb1u hb2u
    rw [e32] at hb1u hb2u
    cases source_name with
    | none => left; simp [dxc_compile_hlsl_to_spirv, hu, hb1u, hb2u]
    | some name =>
    cases hn : stringToWstring env name with
    | none => left; simp [dxc_compile_hlsl_to_spirv, hu, hb1u, hb2u, hn]
    | some wn =>
    cases he : stringToWstring env entry with
    | none => left; simp [dxc_compile_hlsl_to_spirv, hu, hb1u, hb2u, hn, he]
    | some we =>
    cases ht : stringToWstring env profile with
    | none => left; simp [dxc_compile_hlsl_to_spirv, hu, hb1u, hb2u, hn, he, ht]
    | some wt =>
    by_cases hc : c.compiler = 0
    · left; simp [dxc_compile_hlsl_to_spirv, hu, hb1u, hb2u, hn, he, ht, hc]
    rw [compile_reached env c name code source_size entry profile wn we wt hu hc hb1 hb2
      hn he ht]
    split_ifs
    · right; right; right; left; rfl
    · right; right; right; right; exact ⟨_, _, rfl⟩

/-- A compile call on a live handle returns when the handle's objects are
non-null, the source name is present and the three strings convert. -/
theorem compile_returns (env : Env) (c : DxcCompiler) (name code : List Byte)
    (source_size : Nat) (entry profile : List Byte) (wn we wt : WString)
    (hu : c.utils ≠ 0) (hc : c.compiler ≠ 0)
    (hn : stringToWstring env name = some wn)
    (he : stringToWstring env entry = some we)
    (ht : stringToWstring env profile = some wt) :
    ∃ r, (dxc_compile_hlsl_to_spirv env (CtxPtr.live c) (some name) (some code) source_size
        (some entry) (some profile)).outcome = Outcome.returned r := by
  have e32 : (2 : Nat) ^ 32 = 4294967296 := by norm_num
  by_cases hb : FAILED (sourceBlobOf env c code source_size).1 = true ∨
      (sourceBlobOf env c code source_size).2 = 0
  · unfold sourceBlobOf at hb
    rw [e32] at hb
    simp [dxc_compile_hlsl_to_spirv, hu, hb, failWith]
  have hb1 : FAILED (sourceBlobOf env c code source_size).1 = false := by
    cases hf : FAILED (sourceBlobOf env c code source_size).1
    · rfl
    · exact absurd (Or.inl hf) hb
  have hb2 : (sourceBlobOf env c code source_size).2 ≠ 0 := fun h0 => hb (Or.inr h0)
  rw [compile_reached env c name code source_size entry profile wn we wt hu hc hb1 hb2 hn he ht]
  split_ifs
  · exact ⟨_, rfl⟩
  · obtain ⟨r, hr, -⟩ := afterCompile_shape env (compileResultOf env c code source_size we wt).2
      (compilePrefix env c code source_size we wt)
    exact ⟨r, hr⟩

/-- C3 as stated fails: when the compile status is a failure and the library's
error buffer is the single byte NUL, the result has flag 0 and no data, and
its message is that byte and the terminator: empty as a C string. -/
theorem compile_message_can_be_empty :
    (dxc_compile_hlsl_to_spirv (sampleEnv E_FAIL [0]) (CtxPtr.live sampleHandle) (some [97])
        (some [118, 111, 105, 100]) 4 (some [109]) (some [118])).outcome
      = Outcome.returned ⟨none, 0, some [0, 0], 0⟩
    ∧ strlen [0, 0] = 0
    ∧ ¬ (successShape ⟨none, 0, some [0, 0], 0⟩ ∨ failureShapeClaimed ⟨none, 0, some [0, 0], 0⟩) := by
  refine ⟨by decide, by decide, ?_⟩
  rintro (⟨h, -⟩ | ⟨-, -, -, msg, hmsg, hlen⟩)
  · exact absurd h (by decide)
  · simp only [Option.some.injEq] at hmsg
    subst hmsg
    exact absurd hlen (by decide)

/-- C3 amended: every result `dxc_compile_hlsl_to_spirv` returns has exactly
one of two shapes: flag 1, data present, no message; or flag 0, no data, size
0 and a non-null message holding at least one byte before its final NUL,
which is non-empty as a C string unless it is the copy of a library error
buffer that begins with NUL. Data and message are never both set. The call
does return when the handle's objects are non-null, the source name is present
and the three strings convert. -/
theorem compile_result_shape (env : Env) (ctx : CtxPtr)
    (source_name source_code : Option (List Byte)) (source_size : Nat)
    (entry_point target_profile : Option (List Byte)) :
    (∀ r, (dxc_compile_hlsl_to_spirv env ctx source_name source_code source_size entry_point
        target_profile).outcome = Outcome.returned r →
      (successShape r ∨ failureShape env r) ∧ ¬ (successShape r ∧ failureShape env r) ∧
        ¬ (r.data ≠ none ∧ r.error_message ≠ none))
    ∧ (∀ c name code entry profile wn we wt, ctx = CtxPtr.live c → source_name = some name →
        source_code = some code → entry_point = some entry → target_profile = some profile →
        c.utils ≠ 0 → c.compiler ≠ 0 → stringToWstring env name = some wn →
        stringToWstring env entry = some we → stringToWstring env profile = some wt →
        ∃ r, (dxc_compile_hlsl_to_spirv env ctx source_name source_code source_size entry_point
          target_profile).outcome = Outcome.returned r) := by
  constructor
  · intro r hr
    have hshape : successShape r ∨ failureShape env r := by
      rcases compile_outcome_cases env ctx source_name source_code source_size entry_point
        target_profile with ⟨why, h⟩ | h | h | h | ⟨res, t, h⟩
      · rw [h] at hr; exact absurd hr (by simp)
      · obtain ⟨r1, h1, hs, -⟩ := failWith_shape env "Invalid parameters" [] (by decide)
        rw [h, h1, Outcome.returned.injEq] at hr
        exact Or.inr (hr ▸ hs)
      · obtain ⟨r1, h1, hs, -⟩ := failWith_shape env "Failed to create source blob" []
          (by decide)
        rw [h, h1, Outcome.returned.injEq] at hr
        exact Or.inr (hr ▸ hs)
      · obtain ⟨r1, h1, hs, -⟩ := failWith_shape env "Compilation failed" [] (by decide)
        rw [h, h1, Outcome.returned.injEq] at hr
        exact Or.inr (hr ▸ hs)
      · obtain ⟨r1, h1, hs⟩ := afterCompile_shape env res t
        rw [h, h1, Outcome.returned.injEq] at hr
        exact hr ▸ hs
    refine ⟨hshape, ?_, ?_⟩
    · rintro ⟨⟨h1, -, -⟩, ⟨h0, -⟩⟩
      rw [h1] at h0
      exact absurd h0 (by decide)
    · rintro ⟨hd, hm⟩
      rcases hshape with ⟨-, -, h⟩ | ⟨-, h, -⟩
      · exact hm h
      · exact hd h
  · intro c name code entry profile wn we wt hctx hsn hsc hep htp hu hc hn he ht
    subst hctx hsn hsc hep htp
    exact compile_returns env c name code source_size entry profile wn we wt hu hc hn he ht

/-- Witness of C3: the result with the message that is empty as a C string
has the failure shape of the amended statement. -/
theorem compile_result_shape_witness :
    (successShape ⟨none, 0, some [0, 0], 0⟩ ∨
        failureShape (sampleEnv E_FAIL [0]) ⟨none, 0, some [0, 0], 0⟩)
      ∧ ¬ (successShape ⟨none, 0, some [0, 0], 0⟩ ∧
        failureShape (sampleEnv E_FAIL [0]) ⟨none, 0, some [0, 0], 0⟩)
      ∧ ¬ ((⟨none, 0, some [0, 0], 0⟩ : DxcCompileResult).data ≠ none ∧
        (⟨none, 0, some [0, 0], 0⟩ : DxcCompileResult).error_message ≠ none) :=
  (compile_result_shape (sampleEnv E_FAIL [0]) (CtxPtr.live sampleHandle) (some [97])
    (some [118, 111, 105, 100]) 4 (some [109]) (some [118])).1 ⟨none, 0, some [0, 0], 0⟩
    (by decide)

/-! ## C4, C5, C6: success, diagnostics, releases -/

/-- C4: when the source blob is created, `Compile` hands back a result object,
the status is read and is a success, and the output blob is retrieved, the
call returns flag 1, no message, the size of the output blob and a freshly
allocated copy of its bytes (so data is non-null, and the size is positive
when the blob is not empty); the output blob and the result object are then
released. -/
theorem compile_success_copies_output (env : Env) (c : DxcCompiler) (name code : List Byte)
    (source_size : Nat) (entry profile : List Byte) (wn we wt : WString)
    (hu : c.utils ≠ 0) (hc : c.compiler ≠ 0)
    (hb1 : FAILED (sourceBlobOf env c code source_size).1 = false)
    (hb2 : (sourceBlobOf env c code source_size).2 ≠ 0)
    (hn : stringToWstring env name = some wn)
    (he : stringToWstring env entry = some we)
    (ht : stringToWstring env profile = some wt)
    (hc1 : FAILED (compileResultOf env c code source_size we wt).1 = false)
    (hc2 : (compileResultOf env c code source_size we wt).2 ≠ 0)
    (hs1 : FAILED (env.GetStatus (compileResultOf env c code source_size we wt).2).1 = false)
    (hs2 : FAILED (env.GetStatus (compileResultOf env c code source_size we wt).2).2 = false)
    (ho1 : FAILED (env.GetOutput (compileResultOf env c code source_size we wt).2
      DXC_OUT_OBJECT).1 = false)
    (ho2 : (env.GetOutput (compileResultOf env c code source_size we wt).2 DXC_OUT_OBJECT).2
      ≠ 0) :
    (dxc_compile_hlsl_to_spirv env (CtxPtr.live c) (some name) (some code) source_size
        (some entry) (some profile)).outcome
      = Outcome.returned
          ⟨some (env.blob (env.GetOutput (compileResultOf env c code source_size we wt).2
              DXC_OUT_OBJECT).2),
           (env.blob (env.GetOutput (compileResultOf env c code source_size we wt).2
              DXC_OUT_OBJECT).2).length, none, 1⟩
    ∧ (dxc_compile_hlsl_to_spirv env (CtxPtr.live c) (some name) (some code) source_size
        (some entry) (some profile)).trace
      = compilePrefix env c code source_size we wt ++
        [Event.GetStatus (compileResultOf env c code source_size we wt).2,
         Event.GetOutput (compileResultOf env c code source_size we wt).2 DXC_OUT_OBJECT
           (env.GetOutput (compileResultOf env c code source_size we wt).2 DXC_OUT_OBJECT).2,
         Event.GetBufferSize
           (env.GetOutput (compileResultOf env c code source_size we wt).2 DXC_OUT_OBJECT).2,
         Event.malloc (env.blob (env.GetOutput (compileResultOf env c code source_size we wt).2
           DXC_OUT_OBJECT).2).length,
         Event.GetBufferPointer
           (env.GetOutput (compileResultOf env c code source_size we wt).2 DXC_OUT_OBJECT).2,
         Event.Release
           (env.GetOutput (compileResultOf env c code source_size we wt).2 DXC_OUT_OBJECT).2,
         Event.Release (compileResultOf env c code source_size we wt).2]
    ∧ (env.blob (env.GetOutput (compileResultOf env c code source_size we wt).2
          DXC_OUT_OBJECT).2 ≠ [] →
        0 < (env.blob (env.GetOutput (compileResultOf env c code source_size we wt).2
          DXC_OUT_OBJECT).2).length) := by
  rw [compile_reached env c name code source_size entry profile wn we wt hu hc hb1 hb2 hn he ht]
  have hcond : (FAILED (compileResultOf env c code source_size we wt).1
      || (compileResultOf env c code source_size we wt).2 == 0) = false := by
    simp [hc1, hc2]
  have hout : (FAILED (env.GetOutput (compileResultOf env c code source_size we wt).2
      DXC_OUT_OBJECT).1
      || (env.GetOutput (compileResultOf env c code source_size we wt).2 DXC_OUT_OBJECT).2 == 0)
      = false := by
    simp [ho1, ho2]
  rw [hcond]
  simp only [Bool.false_eq_true, if_false]
  rw [afterCompile_output env _ _ hs1 hs2 hout]
  exact ⟨rfl, rfl, fun h => List.length_pos.mpr h⟩

/-- Witness of C4: in `sampleEnv` with a success status the four bytes of the
output blob are returned. -/
theorem compile_success_copies_output_witness :
    (dxc_compile_hlsl_to_spirv (sampleEnv 0 []) (CtxPtr.live sampleHandle) (some [97])
        (some [118, 111, 105, 100]) 4 (some [109]) (some [118])).outcome
      = Outcome.returned ⟨some [3, 2, 35, 7], 4, none, 1⟩ :=
  (compile_success_copies_output (sampleEnv 0 []) sampleHandle [97] [118, 111, 105, 100] 4
    [109] [118] [97] [109] [118] (by decide) (by decide) (by decide) (by decide) (by decide)
    (by decide) (by decide) (by decide) (by decide) (by decide) (by decide) (by decide)
    (by decide)).1

/-- C5: when `Compile` hands back a result object and the status is read and
is a failure, the call returns flag 0, no data, and as message the bytes of
the library's error buffer followed by NUL if that buffer was retrieved, is
non-null and has positive size, otherwise the text "Compilation failed with
unknown error"; `GetOutput` is never called. -/
theorem compile_failure_status_message (env : Env) (c : DxcCompiler) (name code : List Byte)
    (source_size : Nat) (entry profile : List Byte) (wn we wt : WString)
    (hu : c.utils ≠ 0) (hc : c.compiler ≠ 0)
    (hb1 : FAILED (sourceBlobOf env c code source_size).1 = false)
    (hb2 : (sourceBlobOf env c code source_size).2 ≠ 0)
    (hn : stringToWstring env name = some wn)
    (he : stringToWstring env entry = some we)
    (ht : stringToWstring env profile = some wt)
    (hc1 : FAILED (compileResultOf env c code source_size we wt).1 = false)
    (hc2 : (compileResultOf env c code source_size we wt).2 ≠ 0)
    (hs1 : FAILED (env.GetStatus (compileResultOf env c code source_size we wt).2).1 = false)
    (hs2 : FAILED (env.GetStatus (compileResultOf env c code source_size we wt).2).2 = true) :
    (dxc_compile_hlsl_to_spirv env (CtxPtr.live c) (some name) (some code) source_size
        (some entry) (some profile)).outcome
      = Outcome.returned ⟨none, 0,
          some (if SUCCEEDED (env.GetErrorBuffer
                    (compileResultOf env c code source_size we wt).2).1 = true
                  ∧ (env.GetErrorBuffer (compileResultOf env c code source_size we wt).2).2 ≠ 0
                  ∧ 0 < (env.blob (env.GetErrorBuffer
                      (compileResultOf env c code source_size we wt).2).2).length
                then env.blob (env.GetErrorBuffer
                    (compileResultOf env c code source_size we wt).2).2 ++ [0]
                else strdup (lit "Compilation failed with unknown error")), 0⟩
    ∧ ∀ e ∈ (dxc_compile_hlsl_to_spirv env (CtxPtr.live c) (some name) (some code) source_size
        (some entry) (some profile)).trace, e.isGetOutput = false := by
  rw [compile_reached env c name code source_size entry profile wn we wt hu hc hb1 hb2 hn he ht]
  have hcond : (FAILED (compileResultOf env c code source_size we wt).1
      || (compileResultOf env c code source_size we wt).2 == 0) = false := by
    simp [hc1, hc2]
  rw [hcond]
  simp only [Bool.false_eq_true, if_false]
  have hpre : ∀ e ∈ compilePrefix env c code source_size we wt, e.isGetOutput = false := by
    intro e he
    simp only [compilePrefix, List.mem_cons, List.mem_singleton, List.mem_nil_iff,
      or_false] at he
    rcases he with h | h | h | h | h <;> subst h <;> rfl
  cases h3 : (SUCCEEDED (env.GetErrorBuffer (compileResultOf env c code source_size we wt).2).1
      && (env.GetErrorBuffer (compileResultOf env c code source_size we wt).2).2 != 0
      && decide ((env.blob (env.GetErrorBuffer
          (compileResultOf env c code source_size we wt).2).2).length > 0))
  · rw [afterCompile_unknown_error env _ _ hs1 hs2 h3]
    have hneg : ¬ (SUCCEEDED (env.GetErrorBuffer
          (compileResultOf env c code source_size we wt).2).1 = true
        ∧ (env.GetErrorBuffer (compileResultOf env c code source_size we wt).2).2 ≠ 0
        ∧ 0 < (env.blob (env.GetErrorBuffer
            (compileResultOf env c code source_size we wt).2).2).length) := by
      intro ⟨a, b, d⟩
      simp [a, b, d] at h3
    refine ⟨by rw [if_neg hneg], ?_⟩
    intro e he
    simp only [List.mem_append, List.mem_cons, List.mem_singleton, List.mem_nil_iff,
      or_false] at he
    rcases he with ((h | h | h) | h) | h | h
    · exact hpre e h
    · subst h; rfl
    · subst h; rfl
    · split_ifs at h
      · simp only [List.mem_singleton] at h; subst h; rfl
      · simp at h
    · subst h; rfl
    · subst h; rfl
  · rw [afterCompile_diagnostic env _ _ hs1 hs2 h3]
    have hpos : SUCCEEDED (env.GetErrorBuffer
          (compileResultOf env c code source_size we wt).2).1 = true
        ∧ (env.GetErrorBuffer (compileResultOf env c code source_size we wt).2).2 ≠ 0
        ∧ 0 < (env.blob (env.GetErrorBuffer
            (compileResultOf env c code source_size we wt).2).2).length := by
      simpa [Bool.and_eq_true, and_assoc] using h3
    refine ⟨by rw [if_pos hpos], ?_⟩
    intro e he
    simp only [List.mem_append, List.mem_cons, List.mem_singleton, List.mem_nil_iff,
      or_false] at he
    rcases he with h | h | h | h | h | h | h | h | h
    · exact hpre e h
    all_goals subst h; rfl

/-- Witness of C5: a failure status with the error buffer `e`, `r`, `r`. -/
theorem compile_failure_status_message_witness :
    (dxc_compile_hlsl_to_spirv (sampleEnv E_FAIL [101, 114, 114]) (CtxPtr.live sampleHandle)
        (some [97]) (some [118, 111, 105, 100]) 4 (some [109]) (some [118])).outcome
      = Outcome.returned ⟨none, 0, some [101, 114, 114, 0], 0⟩ :=
  (compile_failure_status_message (sampleEnv E_FAIL [101, 114, 114]) sampleHandle [97]
    [118, 111, 105, 100] 4 [109] [118] [97] [109] [118] (by decide) (by decide) (by decide)
    (by decide) (by decide) (by decide) (by decide) (by decide) (by decide) (by decide)
    (by decide)).1

/-- C6 fails on the code: when the compile status is a failure and the library
hands back an error blob (object 31) of size 0, the call obtains the source
blob 21, the result object 22 and the error blob 31, and releases only 21 and
22 before it returns: the error blob is never released. -/
theorem compile_leaks_empty_error_blob :
    (dxc_compile_hlsl_to_spirv (sampleEnv E_FAIL []) (CtxPtr.live sampleHandle) (some [97])
        (some [118, 111, 105, 100]) 4 (some [109]) (some [118])).outcome
      = Outcome.returned
          ⟨none, 0, some (strdup (lit "Compilation failed with unknown error")), 0⟩
    ∧ acquired (dxc_compile_hlsl_to_spirv (sampleEnv E_FAIL []) (CtxPtr.live sampleHandle)
        (some [97]) (some [118, 111, 105, 100]) 4 (some [109]) (some [118])).trace
      = [21, 22, 31]
    ∧ released (dxc_compile_hlsl_to_spirv (sampleEnv E_FAIL []) (CtxPtr.live sampleHandle)
        (some [97]) (some [118, 111, 105, 100]) 4 (some [109]) (some [118])).trace
      = [21, 22]
    ∧ Event.GetErrorBuffer 22 31 ∈
        (dxc_compile_hlsl_to_spirv (sampleEnv E_FAIL []) (CtxPtr.live sampleHandle)
          (some [97]) (some [118, 111, 105, 100]) 4 (some [109]) (some [118])).trace
    ∧ Event.Release 31 ∉
        (dxc_compile_hlsl_to_spirv (sampleEnv E_FAIL []) (CtxPtr.live sampleHandle)
          (some [97]) (some [118, 111, 105, 100]) 4 (some [109]) (some [118])).trace := by
  decide

/-! ## C10: the source name -/

/-- C10: two source names that both convert give the same run: the same
result and the same events, hence the same source buffer and argument vector
handed to `Compile`. The null check does not look at the source name: when one
of the four checked inputs is null the run is the same for every source name,
null included, and a null source name with the four checked inputs non-null is
never answered with "Invalid parameters". -/
theorem compile_ignores_source_name (env : Env) (ctx : CtxPtr) (n1 n2 : List Byte)
    (source_code : Option (List Byte)) (source_size : Nat)
    (entry_point target_profile : Option (List Byte))
    (h1 : stringToWstring env n1 ≠ none) (h2 : stringToWstring env n2 ≠ none) :
    dxc_compile_hlsl_to_spirv env ctx (some n1) source_code source_size entry_point
        target_profile
      = dxc_compile_hlsl_to_spirv env ctx (some n2) source_code source_size entry_point
        target_profile
    ∧ compileCall (dxc_compile_hlsl_to_spirv env ctx (some n1) source_code source_size
        entry_point target_profile).trace
      = compileCall (dxc_compile_hlsl_to_spirv env ctx (some n2) source_code source_size
        entry_point target_profile).trace
    ∧ compileBuffer (dxc_compile_hlsl_to_spirv env ctx (some n1) source_code source_size
        entry_point target_profile).trace
      = compileBuffer (dxc_compile_hlsl_to_spirv env ctx (some n2) source_code source_size
        entry_point target_profile).trace
    ∧ ((ctx = CtxPtr.null ∨ source_code = none ∨ entry_point = none ∨ target_profile = none) →
        ∀ source_name, dxc_compile_hlsl_to_spirv env ctx source_name source_code source_size
          entry_point target_profile = failWith "Invalid parameters" [])
    ∧ (∀ code entry profile, ctx ≠ CtxPtr.null → source_code = some code →
        entry_point = some entry → target_profile = some profile →
        (dxc_compile_hlsl_to_spirv env ctx none source_code source_size entry_point
          target_profile).outcome ≠ (failWith "Invalid parameters" []).outcome) := by
  obtain ⟨w1, hw1⟩ := Option.ne_none_iff_exists'.mp h1
  obtain ⟨w2, hw2⟩ := Option.ne_none_iff_exists'.mp h2
  have heq : dxc_compile_hlsl_to_spirv env ctx (some n1) source_code source_size entry_point
      target_profile
      = dxc_compile_hlsl_to_spirv env ctx (some n2) source_code source_size entry_point
        target_profile := by
    cases ctx <;> cases source_code <;> cases entry_point <;> cases target_profile <;>
      simp [dxc_compile_hlsl_to_spirv, hw1, hw2]
  refine ⟨heq, by rw [heq], by rw [heq], ?_, ?_⟩
  · intro h source_name
    rcases h with h | h | h | h
    · subst h; simp [dxc_compile_hlsl_to_spirv]
    · subst h; cases ctx <;> simp [dxc_compile_hlsl_to_spirv]
    · subst h; cases ctx <;> cases source_code <;> simp [dxc_compile_hlsl_to_spirv]
    · subst h
      cases ctx <;> cases source_code <;> cases entry_point <;> simp [dxc_compile_hlsl_to_spirv]
  · intro code entry profile hctx hsc hep htp
    subst hsc hep htp
    have hdiff : lit "Failed to create source blob" ≠ lit "Invalid parameters" := by decide
    cases ctx with
    | null => exact absurd rfl hctx
    | stale => simp [dxc_compile_hlsl_to_spirv, failWith]
    | live c =>
      by_cases hu : c.utils = 0
      · simp [dxc_compile_hlsl_to_spirv, hu, failWith]
      · simp only [dxc_compile_hlsl_to_spirv, hu, if_false]
        split_ifs
        · simp only [failWith, ne_eq, Outcome.returned.injEq, DxcCompileResult.mk.injEq,
            Option.some.injEq, true_and, and_true, zeroResult, strdup]
          intro h
          exact hdiff (List.append_cancel_right h)
        · simp [failWith]

/-- Witness of C10: the names `a` and `b` in `sampleEnv`. -/
theorem compile_ignores_source_name_witness :
    dxc_compile_hlsl_to_spirv (sampleEnv 0 []) (CtxPtr.live sampleHandle) (some [97])
        (some [118, 111, 105, 100]) 4 (some [109]) (some [118])
      = dxc_compile_hlsl_to_spirv (sampleEnv 0 []) (CtxPtr.live sampleHandle) (some [98])
        (some [118, 111, 105, 100]) 4 (some [109]) (some [118]) :=
  (compile_ignores_source_name (sampleEnv 0 []) (CtxPtr.live sampleHandle) [97] [98]
    (some [118, 111, 105, 100]) 4 (some [109]) (some [118]) (by decide) (by decide)).1

end DxcWrapper
